import Mathlib

/-!
Verification of the Turnstile API server core (`src/api_server.py`).

The shallow embedding below models the mutable server state of
`TurnstileAPIServer`: the job-record dictionary `self.results`, the admission
counter `self.current_task_num`, and the page pool `self.page_pool` (an
`asyncio.Queue`, FIFO).  Python dictionaries holding job records are modelled
as a structure of optional fields (a field absent from the dict is `none`),
so that Python's dict equality — used verbatim by the post-loop guard in
`_solve_turnstile` — is structure equality.  Wall-clock values (`time.time()`)
are modelled as integers passed in explicitly; the environment of a solve
(whether page setup raises, what each attempt's `input_value` read yields)
is an explicit oracle.
-/

set_option autoImplicit false

namespace TurnstileServer

/-- A job record as stored in `self.results`.  Each Python dict key becomes a
field; a key absent from the dict is `none`.  The five keys are the only ones
any writer in `api_server.py` ever uses. -/
structure JobRecord where
  status : String
  message : Option String
  start_time : Option Int
  elapsed_time : Option Int
  value : Option String
deriving DecidableEq, Repr

/-- The record store `self.results`: a string-keyed map, modelled as an
association list with unique keys (inserts overwrite). -/
abbrev Store := List (String × JobRecord)

/-- `self.results[task_id]` lookup (`task_id in self.results` / indexing). -/
def lookupTask : Store → String → Option JobRecord
  | [], _ => none
  | (k, v) :: rest, key => if k = key then some v else lookupTask rest key

/-- `self.results.pop(task_id, None)`: remove every binding of the key. -/
def eraseTask (st : Store) (key : String) : Store :=
  st.filter (fun p => p.1 ≠ key)

/-- `self.results[task_id] = rec`: overwrite/insert. -/
def insertTask (st : Store) (key : String) (v : JobRecord) : Store :=
  (key, v) :: eraseTask st key

/-- The pending record written by `process_turnstile` on admission
(`{"status": "process", "message": 'solving captcha', "start_time": time.time()}`). -/
def pendingRecord (now : Int) : JobRecord :=
  ⟨"process", some "solving captcha", some now, none, none⟩

/-- The dict literal the post-loop guard in `_solve_turnstile` compares
against: `{"status": "process", "message": 'solving captcha'}`.  Note it has
no `start_time` key. -/
def pendingCheck : JobRecord :=
  ⟨"process", some "solving captcha", none, none, none⟩

/-- The success record written inside the solve loop. -/
def successRecord (elapsed : Int) (v : String) : JobRecord :=
  ⟨"success", none, none, some elapsed, some v⟩

/-- The failure record written by the post-loop guard and by the outer
`except` of `_solve_turnstile`. -/
def captchaFailRecord (elapsed : Int) : JobRecord :=
  ⟨"error", none, none, some elapsed, some "captcha_fail"⟩

/-- The record `get_result` writes when a pending task is older than 300 s. -/
def timeoutRecord (elapsed : Int) : JobRecord :=
  ⟨"error", some "Task timeout", none, some elapsed, some "timeout"⟩

/-! ## `process_turnstile` (admission) -/

/-- Outcome of a `/turnstile` request. -/
inductive TurnstileResp
  /-- 400: missing/empty `url` or `sitekey`. -/
  | badRequest
  /-- 429: server at maximum capacity. -/
  | capacity
  /-- 202: accepted, returning the task id. -/
  | accepted (task_id : String)
deriving DecidableEq, Repr

/-- State after a `/turnstile` request. -/
structure AdmitResult where
  resp : TurnstileResp
  results : Store
  current_task_num : Int
deriving DecidableEq, Repr

/-- `process_turnstile` from `api_server.py`: parameter check, capacity check
against `max_task_num`, then insert a pending record under the fresh
`task_id` and increment the counter.  (`asyncio.create_task` of the solver
never raises here, so the 500 fallback of the `try` is not reachable and the
counter increment always follows the insert.) -/
def process_turnstile (results : Store) (current_task_num max_task_num : Int)
    (task_id url sitekey : String) (now : Int) : AdmitResult :=
  if url = "" ∨ sitekey = "" then
    ⟨.badRequest, results, current_task_num⟩
  else if current_task_num ≥ max_task_num then
    ⟨.capacity, results, current_task_num⟩
  else
    ⟨.accepted task_id, insertTask results task_id (pendingRecord now),
      current_task_num + 1⟩

/-! ## `get_result` (polling endpoint) -/

/-- Python's substring test `needle in hay`, on the character lists of the
two strings: `needle` is a prefix of some suffix of `hay`. -/
def containsSub (needle : List Char) : List Char → Bool
  | [] => decide (needle = [])
  | c :: rest => needle.isPrefixOf (c :: rest) || containsSub needle rest

/-- The status-code selection at the end of `get_result`:
`success` → 200, `value == "timeout"` → 408, `"captcha_fail" in value` → 422,
otherwise 500. -/
def statusCodeFor (r : JobRecord) : Nat :=
  if r.status = "success" then 200
  else if r.value = some "timeout" then 408
  else if containsSub "captcha_fail".toList ((r.value.getD "").toList) then 422
  else 500

/-- Outcome of a `/result` request. -/
inductive ResultResp
  /-- 400: empty task id. -/
  | badRequest
  /-- 404: unknown or already-consumed id. -/
  | notFound
  /-- 202: still pending, snapshot returned, record kept. -/
  | pending (r : JobRecord)
  /-- Terminal: record popped and returned with the selected status code. -/
  | final (code : Nat) (r : JobRecord)
deriving DecidableEq, Repr

/-- `get_result` from `api_server.py`.  A pending record older than 300 s is
rewritten to `timeoutRecord` and then falls through to the terminal path,
which pops the record and selects the status code. -/
def get_result (results : Store) (task_id : String) (now : Int) :
    ResultResp × Store :=
  if task_id = "" then (.badRequest, results)
  else
    match lookupTask results task_id with
    | none => (.notFound, results)
    | some r =>
      if r.status = "process" then
        if now - (r.start_time.getD now) > 300 then
          let r2 := timeoutRecord (now - (r.start_time.getD now))
          let results2 := insertTask results task_id r2
          (.final (statusCodeFor r2) r2, eraseTask results2 task_id)
        else
          (.pending r, results)
      else
        (.final (statusCodeFor r) r, eraseTask results task_id)

/-! ## `_solve_turnstile` (solve routine) -/

/-- What one iteration of the 30-attempt loop observes:
`read v` — `page.input_value` returned the string `v` (empty means the widget
has not solved yet, and the subsequent click-and-sleep succeeded);
`exn` — an exception was raised somewhere inside the attempt (read timeout,
detached frame, failed click) and swallowed by the inner `except`. -/
inductive Attempt
  | read (v : String)
  | exn
deriving DecidableEq, Repr

/-- Observable side effect of one non-final loop iteration. -/
inductive LoopAction
  /-- The empty-read branch: click the widget once, sleep 0.2 s. -/
  | clickAndWait
  /-- The inner `except`: log and fall through to the next attempt. -/
  | swallowExn
deriving DecidableEq, Repr

/-- Result of running the attempt loop on a (pre-truncated) attempt list. -/
structure LoopResult where
  found : Option String
  actions : List LoopAction
  used : Nat
deriving DecidableEq, Repr

/-- The `for attempt in range(30)` loop body of `_solve_turnstile`, run on the
attempt oracle (callers truncate to 30): read the response field; if empty,
click and wait; if non-empty, stop with the value; exceptions consume the
attempt. -/
def solveLoop : List Attempt → LoopResult
  | [] => ⟨none, [], 0⟩
  | .read v :: rest =>
    if v = "" then
      let r := solveLoop rest
      ⟨r.found, .clickAndWait :: r.actions, r.used + 1⟩
    else ⟨some v, [], 1⟩
  | .exn :: rest =>
    let r := solveLoop rest
    ⟨r.found, .swallowExn :: r.actions, r.used + 1⟩

/-- State after a `_solve_turnstile` invocation. -/
structure SolveResult where
  results : Store
  current_task_num : Int
  pool : List Nat
deriving DecidableEq, Repr

/-- `_solve_turnstile` from `api_server.py`.  Pool members are opaque
`(page, context)` handles, modelled by `Nat` tags; `page_pool.get()` takes
the queue head (and blocks forever on an empty pool — modelled as the
identity on an empty pool, callers supply a non-empty one), `put` appends.
`setup_ok = false` means one of the pre-loop calls (`route`, `goto`,
`eval_on_selector`) raised, reaching the outer `except`.  After the loop the
guard compares the current record with the `pendingCheck` dict literal and
writes `captchaFailRecord` only on equality.  The `finally` block decrements
the counter and returns the acquired handle to the pool. -/
def solve_turnstile (results : Store) (current_task_num : Int)
    (pool : List Nat) (task_id : String) (setup_ok : Bool)
    (attempts : List Attempt) (start_time now : Int) : SolveResult :=
  match pool with
  | [] => ⟨results, current_task_num, []⟩
  | res :: restPool =>
    let elapsed := now - start_time
    let results2 :=
      if setup_ok then
        let afterLoop :=
          match (solveLoop (attempts.take 30)).found with
          | some v => insertTask results task_id (successRecord elapsed v)
          | none => results
        if lookupTask afterLoop task_id = some pendingCheck then
          insertTask afterLoop task_id (captchaFailRecord elapsed)
        else afterLoop
      else
        insertTask results task_id (captchaFailRecord elapsed)
    ⟨results2, current_task_num - 1, restPool ++ [res]⟩

/-! ## `_cleanup_results` (expiry sweep) -/

/-- One pass of `_cleanup_results`: drop every record whose `status` is
`"error"` and for which `now - res.get("start_time", 0) > 3600`. -/
def cleanup_results (results : Store) (now : Int) : Store :=
  results.filter
    (fun p => ¬ (p.2.status = "error" ∧ now - (p.2.start_time.getD 0) > 3600))

/-! ## `_periodic_cleanup` (recycling sweep) -/

/-- One slot of the recycling sweep: take the queue head, close it
(best-effort — close failures are caught and do not abort the slot), then
recreate a context/page pair.  `recreate_ok = false` means
`_create_context_with_proxy` or `new_page` raised, hitting the outer
`except ... continue`: nothing is put back.  On success the fresh handle is
appended to the pool. -/
def recycle_slot (pool : List Nat) (recreate_ok : Bool) (fresh : Nat) :
    List Nat :=
  match pool with
  | [] => []
  | _ :: rest => if recreate_ok then rest ++ [fresh] else rest

/-- One full pass of `_periodic_cleanup`: iterate `recycle_slot` once per
slot, `total = self.max_task_num` times; `slots` carries, per iteration, the
recreate-success oracle and the fresh handle's tag. -/
def recycle_pass (pool : List Nat) : List (Bool × Nat) → List Nat
  | [] => pool
  | (ok, fresh) :: restSlots => recycle_pass (recycle_slot pool ok fresh) restSlots

/-! ## Derived predicates -/

/-- The side effect a non-final loop iteration produces, per attempt
outcome. -/
def actionOf : Attempt → LoopAction
  | .read _ => .clickAndWait
  | .exn => .swallowExn

/-- The record-shape invariant of claim C9: a pending (`"process"`) record
carries neither `elapsed_time` nor `value`; a terminal record carries
both. -/
def recInv (r : JobRecord) : Prop :=
  if r.status = "process" then r.elapsed_time = none ∧ r.value = none
  else r.elapsed_time ≠ none ∧ r.value ≠ none

/-- Every record in the store satisfies `recInv`. -/
def StoreInv (st : Store) : Prop := ∀ p ∈ st, recInv p.2

/-! ## Store lemmas -/

theorem lookupTask_eraseTask_self (st : Store) (k : String) :
    lookupTask (eraseTask st k) k = none := by
  induction st with
  | nil => rfl
  | cons p rest ih =>
    by_cases h : p.1 = k
    · simpa [eraseTask, List.filter_cons, h] using ih
    · simpa [eraseTask, List.filter_cons, h, lookupTask] using ih

theorem lookupTask_insertTask_self (st : Store) (k : String) (v : JobRecord) :
    lookupTask (insertTask st k v) k = some v := by
  simp [insertTask, lookupTask]

theorem eraseTask_of_lookup_none (st : Store) (k : String)
    (h : lookupTask st k = none) : eraseTask st k = st := by
  induction st with
  | nil => rfl
  | cons p rest ih =>
    by_cases hp : p.1 = k
    · simp [lookupTask, hp] at h
    · simp only [lookupTask, if_neg hp] at h
      have h2 := ih h
      simp only [eraseTask] at h2 ⊢
      have hb : (decide (p.1 ≠ k)) = true := by simpa using hp
      rw [List.filter_cons, hb, if_pos rfl, h2]

theorem eraseTask_insertTask (st : Store) (k : String) (v : JobRecord) :
    eraseTask (insertTask st k v) k = eraseTask st k := by
  simp [insertTask, eraseTask, List.filter_cons, List.filter_filter]

theorem length_insertTask_of_fresh (st : Store) (k : String) (v : JobRecord)
    (h : lookupTask st k = none) :
    (insertTask st k v).length = st.length + 1 := by
  simp [insertTask, eraseTask_of_lookup_none st k h]

/-! ## Invariant lemmas -/

theorem StoreInv.erase {st : Store} (h : StoreInv st) (k : String) :
    StoreInv (eraseTask st k) := by
  intro p hp
  exact h p (List.mem_of_mem_filter hp)

theorem StoreInv.insert {st : Store} (h : StoreInv st) (k : String)
    {v : JobRecord} (hv : recInv v) : StoreInv (insertTask st k v) := by
  intro p hp
  rcases List.mem_cons.mp hp with h1 | h2
  · rw [h1]; exact hv
  · exact h.erase k p h2

theorem recInv_pendingRecord (now : Int) : recInv (pendingRecord now) := by
  simp [recInv, pendingRecord]

theorem recInv_successRecord (e : Int) (v : String) :
    recInv (successRecord e v) := by
  simp [recInv, successRecord]

theorem recInv_captchaFailRecord (e : Int) : recInv (captchaFailRecord e) := by
  simp [recInv, captchaFailRecord]

theorem recInv_timeoutRecord (e : Int) : recInv (timeoutRecord e) := by
  simp [recInv, timeoutRecord]

/-! ## Solve-loop lemmas -/

theorem solveLoop_first_success (pre post : List Attempt) (v : String)
    (hv : v ≠ "")
    (hpre : ∀ a ∈ pre, a = Attempt.exn ∨ a = Attempt.read "") :
    solveLoop (pre ++ Attempt.read v :: post)
      = ⟨some v, pre.map actionOf, pre.length + 1⟩ := by
  induction pre with
  | nil => simp [solveLoop, hv]
  | cons a rest ih =>
    have hrest : ∀ b ∈ rest, b = Attempt.exn ∨ b = Attempt.read "" :=
      fun b hb => hpre b (List.mem_cons_of_mem a hb)
    rcases hpre a (List.mem_cons_self a rest) with ha | ha <;> subst ha <;>
      simp [solveLoop, ih hrest, actionOf]

theorem solveLoop_used_le (l : List Attempt) : (solveLoop l).used ≤ l.length := by
  induction l with
  | nil => simp [solveLoop]
  | cons a rest ih =>
    cases a with
    | read v =>
      by_cases hv : v = ""
      · simpa [solveLoop, hv] using ih
      · simp [solveLoop, hv]
    | exn => simpa [solveLoop] using ih

theorem statusCodeFor_successRecord (e : Int) (v : String) :
    statusCodeFor (successRecord e v) = 200 := by
  simp [statusCodeFor, successRecord]

theorem statusCodeFor_timeoutRecord (e : Int) :
    statusCodeFor (timeoutRecord e) = 408 := by
  simp [statusCodeFor, timeoutRecord]

theorem statusCodeFor_captchaFailRecord (e : Int) :
    statusCodeFor (captchaFailRecord e) = 422 := rfl

/-! ## Claim theorems -/

/-- Claim C2: a `/turnstile` request carrying both parameters is rejected
with 429, no record created and the counter unchanged, exactly when the
admission counter has reached `max_task_num`; otherwise a pending record
with `start_time = now` is inserted under the fresh id, the counter is
incremented by exactly one, and 202 with the task id is returned. -/
theorem C2_admission_gate (st : Store) (cur maxT : Int)
    (tid url sk : String) (now : Int)
    (hu : url ≠ "") (hs : sk ≠ "") (hfresh : lookupTask st tid = none) :
    (cur ≥ maxT →
      process_turnstile st cur maxT tid url sk now
        = ⟨.capacity, st, cur⟩) ∧
    (cur < maxT →
      process_turnstile st cur maxT tid url sk now
        = ⟨.accepted tid, insertTask st tid (pendingRecord now), cur + 1⟩ ∧
      lookupTask (insertTask st tid (pendingRecord now)) tid
        = some (pendingRecord now) ∧
      (insertTask st tid (pendingRecord now)).length = st.length + 1) := by
  constructor
  · intro hcap
    simp [process_turnstile, hu, hs, hcap]
  · intro hlt
    refine ⟨?_, lookupTask_insertTask_self st tid (pendingRecord now),
      length_insertTask_of_fresh st tid (pendingRecord now) hfresh⟩
    simp [process_turnstile, hu, hs, not_le.mpr hlt]

/-- Witness for C2 at a concrete state: one admission below capacity. -/
theorem C2_admission_gate_witness :
    process_turnstile [] 0 1 "t" "u" "s" 5
      = ⟨.accepted "t", insertTask [] "t" (pendingRecord 5), 1⟩ :=
  ((C2_admission_gate [] 0 1 "t" "u" "s" 5 (by decide) (by decide) rfl).2
    (by decide)).1

/-- Claim C3: a `/result` read of a terminal record pops it and returns it
with the selected status code; a second read of the same id, and any read of
an id absent from the store, returns 404. -/
theorem C3_read_once (st : Store) (tid : String) (now now2 : Int)
    (r : JobRecord) (htid : tid ≠ "")
    (hr : lookupTask st tid = some r) (hterm : r.status ≠ "process") :
    get_result st tid now = (.final (statusCodeFor r) r, eraseTask st tid) ∧
    (get_result (eraseTask st tid) tid now2).1 = .notFound ∧
    (∀ st2 : Store, lookupTask st2 tid = none →
      (get_result st2 tid now2).1 = .notFound) := by
  have habsent : ∀ st2 : Store, lookupTask st2 tid = none →
      (get_result st2 tid now2).1 = .notFound := by
    intro st2 h2
    simp [get_result, htid, h2]
  refine ⟨?_, habsent _ (lookupTask_eraseTask_self st tid), habsent⟩
  simp [get_result, htid, hr, hterm]

/-- Witness for C3: a concrete success record is consumed by one read. -/
theorem C3_read_once_witness :
    get_result [("t", successRecord 2 "tok")] "t" 50
      = (.final (statusCodeFor (successRecord 2 "tok")) (successRecord 2 "tok"),
         eraseTask [("t", successRecord 2 "tok")] "t") ∧
    (get_result (eraseTask [("t", successRecord 2 "tok")] "t") "t" 60).1
      = .notFound :=
  ⟨(C3_read_once [("t", successRecord 2 "tok")] "t" 50 60 (successRecord 2 "tok")
      (by decide) rfl (by decide)).1,
   (C3_read_once [("t", successRecord 2 "tok")] "t" 50 60 (successRecord 2 "tok")
      (by decide) rfl (by decide)).2.1⟩

/-- Claim C4: a record still pending at read time is escalated to a terminal
timeout error, returned with 408 and removed by that same read when its age
exceeds 300 s; otherwise the read returns the pending snapshot (202) and
leaves the store unchanged. -/
theorem C4_pending_timeout (st : Store) (tid : String) (t0 now : Int)
    (r : JobRecord) (htid : tid ≠ "") (hr : lookupTask st tid = some r)
    (hstatus : r.status = "process") (hstart : r.start_time = some t0) :
    (now - t0 > 300 →
      get_result st tid now
        = (.final 408 (timeoutRecord (now - t0)), eraseTask st tid) ∧
      lookupTask (eraseTask st tid) tid = none) ∧
    (now - t0 ≤ 300 →
      get_result st tid now = (.pending r, st)) := by
  constructor
  · intro hage
    refine ⟨?_, lookupTask_eraseTask_self st tid⟩
    simp only [get_result, if_neg htid, hr, hstatus, hstart, Option.getD_some,
      if_pos hage, if_pos rfl, if_true, statusCodeFor_timeoutRecord,
      eraseTask_insertTask]
  · intro hage
    simp [get_result, htid, hr, hstatus, hstart, not_lt.mpr hage]

/-- Witness for C4: a pending record created at 0, read at 301 (kept) and at
302 (escalated to 408 and removed). -/
theorem C4_pending_timeout_witness :
    get_result [("t", pendingRecord 0)] "t" 302
      = (.final 408 (timeoutRecord 302), eraseTask [("t", pendingRecord 0)] "t") ∧
    get_result [("t", pendingRecord 0)] "t" 300
      = (.pending (pendingRecord 0), [("t", pendingRecord 0)]) :=
  ⟨((C4_pending_timeout [("t", pendingRecord 0)] "t" 0 302 (pendingRecord 0)
      (by decide) rfl rfl rfl).1 (by decide)).1,
   (C4_pending_timeout [("t", pendingRecord 0)] "t" 0 300 (pendingRecord 0)
      (by decide) rfl rfl rfl).2 (by decide)⟩

/-- Claim C5: whatever the outcome (success, exhaustion, or a setup
exception), `_solve_turnstile`'s `finally` decrements the counter by exactly
one and appends the acquired handle back to the pool, preserving the pool's
cardinality. -/
theorem C5_counter_and_pool_release (st : Store) (cur : Int) (p : Nat)
    (restPool : List Nat) (tid : String) (setup_ok : Bool)
    (attempts : List Attempt) (start now : Int) :
    (solve_turnstile st cur (p :: restPool) tid setup_ok attempts start
        now).current_task_num = cur - 1 ∧
    (solve_turnstile st cur (p :: restPool) tid setup_ok attempts start
        now).pool = restPool ++ [p] ∧
    (solve_turnstile st cur (p :: restPool) tid setup_ok attempts start
        now).pool.length = (p :: restPool).length := by
  refine ⟨rfl, rfl, ?_⟩
  show (restPool ++ [p]).length = (p :: restPool).length
  simp

/-- Claim C8: the solve loop runs at most 30 attempts; the first attempt
whose read yields a non-empty string `v` stops the loop (consuming exactly
the preceding attempts, each an empty read answered by one click-and-wait or
a swallowed exception) and `_solve_turnstile` writes a success record whose
value is `v`. -/
theorem C8_bounded_attempt_loop (st : Store) (cur : Int) (p : Nat)
    (restPool : List Nat) (tid : String) (pre post : List Attempt)
    (v : String) (start now : Int) (hv : v ≠ "") (hlen : pre.length < 30)
    (hpre : ∀ a ∈ pre, a = Attempt.exn ∨ a = Attempt.read "") :
    solveLoop ((pre ++ Attempt.read v :: post).take 30)
      = ⟨some v, pre.map actionOf, pre.length + 1⟩ ∧
    (solve_turnstile st cur (p :: restPool) tid true
        (pre ++ Attempt.read v :: post) start now).results
      = insertTask st tid (successRecord (now - start) v) ∧
    (∀ l : List Attempt, (solveLoop (l.take 30)).used ≤ 30) := by
  have htake : (pre ++ Attempt.read v :: post).take 30
      = pre ++ Attempt.read v :: post.take (29 - pre.length) := by
    rw [List.take_append_eq_append_take,
      List.take_of_length_le (le_of_lt hlen),
      show 30 - pre.length = (29 - pre.length) + 1 by omega,
      List.take_succ_cons]
  have hloop : solveLoop ((pre ++ Attempt.read v :: post).take 30)
      = ⟨some v, pre.map actionOf, pre.length + 1⟩ := by
    rw [htake]
    exact solveLoop_first_success pre _ v hv hpre
  have hbound : ∀ l : List Attempt, (solveLoop (l.take 30)).used ≤ 30 :=
    fun l => le_trans (solveLoop_used_le _) (List.length_take_le 30 l)
  refine ⟨hloop, ?_, hbound⟩
  have hne : lookupTask
      (insertTask st tid (successRecord (now - start) v)) tid
      ≠ some pendingCheck := by
    rw [lookupTask_insertTask_self]
    intro hcontra
    simp [successRecord, pendingCheck] at hcontra
  simp only [solve_turnstile, hloop]
  rw [if_neg hne]
  exact if_pos trivial

/-- Witness for C8: two failed attempts (an empty read, a swallowed
exception), then a successful read of `"tok"`. -/
theorem C8_bounded_attempt_loop_witness :
    (solve_turnstile [] 1 [7] "t" true
        [Attempt.read "", Attempt.exn, Attempt.read "tok"] 0 1).results
      = insertTask [] "t" (successRecord 1 "tok") := by
  have h := (C8_bounded_attempt_loop [] 1 7 [] "t"
    [Attempt.read "", Attempt.exn] [] "tok" 0 1 (by decide) (by decide)
    (by decide)).2.1
  simpa using h

/-- Claim C9: each store-writing operation (admission, the solve routine's
terminal writes, and the `/result` read with its timeout escalation)
preserves the record-shape invariant: pending records carry no
elapsed-time/value, terminal records carry both. -/
theorem C9_record_shape_invariant (st : Store) (h : StoreInv st)
    (cur maxT : Int) (tida url sk : String) (nowa : Int) (pool : List Nat)
    (tids : String) (setup_ok : Bool) (attempts : List Attempt)
    (start nows : Int) (tidr : String) (nowr : Int) :
    StoreInv (process_turnstile st cur maxT tida url sk nowa).results ∧
    StoreInv (solve_turnstile st cur pool tids setup_ok attempts start
      nows).results ∧
    StoreInv (get_result st tidr nowr).2 := by
  refine ⟨?_, ?_, ?_⟩
  · unfold process_turnstile
    split
    · exact h
    · split
      · exact h
      · exact h.insert _ (recInv_pendingRecord _)
  · cases pool with
    | nil => exact h
    | cons q qs =>
      have hAfter : StoreInv (match (solveLoop (attempts.take 30)).found with
          | some v => insertTask st tids (successRecord (nows - start) v)
          | none => st) := by
        cases (solveLoop (attempts.take 30)).found with
        | none => exact h
        | some v => exact h.insert _ (recInv_successRecord _ _)
      cases setup_ok with
      | false => exact h.insert _ (recInv_captchaFailRecord _)
      | true =>
        simp only [solve_turnstile, if_true]
        split
        · exact hAfter.insert _ (recInv_captchaFailRecord _)
        · exact hAfter
  · unfold get_result
    split
    · exact h
    · split
      · exact h
      · split
        · split
          · exact (h.insert _ (recInv_timeoutRecord _)).erase _
          · exact h
        · exact h.erase _

/-- Witness for C9 on concrete states: an admission into the empty store, a
successful solve, and a read of an unknown id. -/
theorem C9_record_shape_invariant_witness :
    StoreInv (process_turnstile [] 0 2 "t" "u" "s" 5).results ∧
    StoreInv (solve_turnstile [] 0 [7] "t" true [Attempt.read "tok"] 0
      1).results ∧
    StoreInv (get_result [] "t" 9).2 :=
  C9_record_shape_invariant [] (by intro p hp; cases hp) 0 2 "t" "u" "s" 5
    [7] "t" true [Attempt.read "tok"] 0 1 "t" 9

/-- Claim C10: every terminal record shape the server itself writes — a
success record, a `captcha_fail` error record, a `timeout` error record —
maps to 200, 422 or 408 respectively; the 500 fallback of `get_result` is
unreachable for them. -/
theorem C10_no_500_for_server_records (e : Int) (v : String) :
    statusCodeFor (successRecord e v) = 200 ∧
    statusCodeFor (captchaFailRecord e) = 422 ∧
    statusCodeFor (timeoutRecord e) = 408 ∧
    statusCodeFor (successRecord e v) ≠ 500 ∧
    statusCodeFor (captchaFailRecord e) ≠ 500 ∧
    statusCodeFor (timeoutRecord e) ≠ 500 := by
  refine ⟨statusCodeFor_successRecord e v, statusCodeFor_captchaFailRecord e,
    statusCodeFor_timeoutRecord e, ?_, ?_, ?_⟩ <;>
    simp [statusCodeFor_successRecord, statusCodeFor_captchaFailRecord,
      statusCodeFor_timeoutRecord]

/-- Claim C1 (code bug): the post-loop guard of `_solve_turnstile` compares
the stored record with a dict literal that lacks the `start_time` key, so
it never matches the pending record written at admission.  After 30 empty
attempts no `captcha_fail` record is written — the job stays pending — and
a later `/result` read escalates it to 408 `timeout` instead of the
specified 422 `captcha_fail`. -/
theorem C1_exhaustion_write_is_dead_code :
    (solve_turnstile (insertTask [] "t" (pendingRecord 100)) 1 [7] "t" true
        (List.replicate 30 (Attempt.read "")) 100 118).results
      = insertTask [] "t" (pendingRecord 100) ∧
    (get_result (insertTask [] "t" (pendingRecord 100)) "t" 401).1
      = .final 408 (timeoutRecord 301) ∧
    pendingRecord 100 ≠ pendingCheck := by decide

/-- Claim C6 (code bug): the expiry sweep computes a record's age from
`res.get("start_time", 0)`, but the solver's terminal error records carry
no `start_time` key, so the age defaults to `now - 0` and a fresh
`captcha_fail` record (here 20 time units old, retention window 3600) is
removed by the very next sweep, while success and pending records are
kept. -/
theorem C6_expiry_removes_young_error_records :
    cleanup_results
        [("a", captchaFailRecord 10), ("b", successRecord 3 "tok"),
         ("c", pendingRecord 4500)] 5000
      = [("b", successRecord 3 "tok"), ("c", pendingRecord 4500)] ∧
    (captchaFailRecord 10).start_time = none := by decide

/-- Counterexample to claim C7 as stated: a recycling pass over a pool of
cardinality 1 whose single slot fails recreation returns a pool of
cardinality 0, not 1. -/
theorem C7_pool_shrinks_on_recreate_failure :
    recycle_pass [1] [(false, 2)] = ([] : List Nat) ∧
    (recycle_pass [1] [(false, 2)]).length ≠ ([1] : List Nat).length := by
  decide

/-- Claim C7 as amended: a pass returns one resource per slot whose
recreation succeeded; a slot whose context/page recreation fails is dropped
without replacement, so the pool cardinality after the pass is the initial
cardinality minus the number of recreation failures. -/
theorem C7_amended_pool_cardinality (slots : List (Bool × Nat))
    (pool : List Nat) (h : slots.length ≤ pool.length) :
    (recycle_pass pool slots).length
      = pool.length - (slots.map Prod.fst).count false := by
  induction slots generalizing pool with
  | nil => simp [recycle_pass]
  | cons s rest ih =>
    obtain ⟨ok, fresh⟩ := s
    cases pool with
    | nil => simp at h
    | cons q qs =>
      simp only [List.length_cons] at h
      cases ok with
      | true =>
        have hslot : recycle_slot (q :: qs) true fresh = qs ++ [fresh] := rfl
        have h2 : rest.length ≤ (qs ++ [fresh]).length := by
          simp only [List.length_append, List.length_cons,
            List.length_nil]
          omega
        simp only [recycle_pass]
        rw [hslot, ih _ h2]
        have hlen2 : (qs ++ [fresh]).length = qs.length + 1 := by
          simp
        have hc : ((((true, fresh) :: rest).map Prod.fst).count false)
            = (rest.map Prod.fst).count false := by
          simp [List.count_cons]
        rw [hlen2, hc]
        simp
      | false =>
        have hslot : recycle_slot (q :: qs) false fresh = qs := rfl
        have h2 : rest.length ≤ qs.length := by omega
        have hcount : (rest.map Prod.fst).count false ≤ rest.length := by
          have h3 := List.count_le_length false (rest.map Prod.fst)
          simpa using h3
        simp only [recycle_pass]
        rw [hslot, ih _ h2]
        have hc : ((((false, fresh) :: rest).map Prod.fst).count false)
            = (rest.map Prod.fst).count false + 1 := by
          simp [List.count_cons]
        rw [hc]
        simp only [List.length_cons]
        omega

/-- Witness for the amended C7: two slots over a pool of two, one recreation
failure, leaving cardinality one. -/
theorem C7_amended_pool_cardinality_witness :
    (recycle_pass [1, 2] [(true, 5), (false, 6)]).length
      = ([1, 2] : List Nat).length
        - ([(true, 5), (false, 6)].map Prod.fst).count false :=
  C7_amended_pool_cardinality [(true, 5), (false, 6)] [1, 2] (by decide)

end TurnstileServer
